import Mathlib

/-
Verification of the idyntra-backend Verification Decision Pipeline.

Shallow embedding of the Python sources:
  app/core/image_similarity.py      (ImageSimilarityDetector)
  app/core/liveness.py              (LivenessDetector)
  app/core/document_detection.py    (DocumentStructureDetector)
  app/core/document_auth.py         (DocumentAuthenticator)
  app/services/verification_service.py (VerificationService)

Modelling conventions:
  * numpy images are `Img`: a dense pixel grid with `gray = true` for a 2-D
    (h, w) array and `gray = false` for a 3-D (h, w, 3) BGR array.  Pixel
    data is a total function; Python float arithmetic is modelled exactly
    over ℚ (and over ℝ where the source computes a square root), so float
    rounding is abstracted away.
  * external library calls (cv2, numpy, skimage, face_recognition) are
    modelled either concretely from their documented semantics (resize,
    BGR→gray, threshold, histogram) or as abstract parameters
    (`LivenessPrims`, `DocPrims`, face locators), matching the spec's §6
    external-interface boundary.
  * Python exceptions are modelled with `Except PyError`; a `try/except`
    is a `match` on the modelled raise points of its body.
  * Python `None` values stored in result dicts are modelled as `none` of
    an `Option` field.
-/

namespace Idyntra

abbrev PyError := String

/-- An in-memory image: `gray = true` models a 2-D `(h, w)` ndarray,
`gray = false` a 3-D `(h, w, 3)` BGR ndarray. `data i j k` is the value of
channel `k` of pixel `(i, j)` (channel 0 for grayscale arrays). -/
structure Img where
  h : ℕ
  w : ℕ
  gray : Bool
  data : ℕ → ℕ → ℕ → ℕ

/-- A grayscale float matrix as produced by `cv2.cvtColor(..., COLOR_BGR2GRAY)`
(exact rational arithmetic; uint8 rounding abstracted). -/
structure GrayImg where
  h : ℕ
  w : ℕ
  px : ℕ → ℕ → ℚ

/-- Model of `cv2.resize(img, (wNew, hNew))` by index sampling (the exact
interpolation kernel is irrelevant to the claims: only determinism and
shape/channel preservation matter, and both hold for cv2.resize). -/
def resizeTo (img : Img) (wNew hNew : ℕ) : Img :=
  ⟨hNew, wNew, img.gray, fun i j k => img.data (i * img.h / hNew) (j * img.w / wNew) k⟩

/-- Model of grayscale conversion: identity on 2-D arrays, the BGR2GRAY
luma combination Y = 0.299 R + 0.587 G + 0.114 B on 3-channel arrays
(channel order B, G, R). -/
def cvtGray (img : Img) : GrayImg :=
  ⟨img.h, img.w, fun i j =>
    if img.gray then (img.data i j 0 : ℚ)
    else (299 * (img.data i j 2 : ℚ) + 587 * (img.data i j 1 : ℚ)
          + 114 * (img.data i j 0 : ℚ)) / 1000⟩

/-- Index-sampling resize of a grayscale float matrix (`cv2.resize` model). -/
def resizeGray (g : GrayImg) (wNew hNew : ℕ) : GrayImg :=
  ⟨hNew, wNew, fun i j => g.px (i * g.h / hNew) (j * g.w / wNew)⟩

/-- Sum of a function over an `h × w` grid. -/
def gridSum (h w : ℕ) (f : ℕ → ℕ → ℚ) : ℚ :=
  ∑ i ∈ Finset.range h, ∑ j ∈ Finset.range w, f i j

/-- Mean of a function over an `h × w` grid (`np.mean`; division by zero on
an empty grid yields 0, matching the claims' use sites). -/
def gridMean (h w : ℕ) (f : ℕ → ℕ → ℚ) : ℚ :=
  gridSum h w f / ((h : ℚ) * w)

/- ------------------------------------------------------------------
   app/core/image_similarity.py — ImageSimilarityDetector
   ------------------------------------------------------------------ -/

/-- SSIM stabilising constant C1 = (0.01 · 255)². -/
def ssimC1 : ℚ := (51/20)^2

/-- SSIM stabilising constant C2 = (0.03 · 255)². -/
def ssimC2 : ℚ := (153/20)^2

/-- Variance of an `h × w` grayscale matrix. -/
def varGrid (h w : ℕ) (x : ℕ → ℕ → ℚ) : ℚ :=
  gridMean h w fun i j => (x i j - gridMean h w x)^2

/-- Covariance of two `h × w` grayscale matrices. -/
def covGrid (h w : ℕ) (x y : ℕ → ℕ → ℚ) : ℚ :=
  gridMean h w fun i j => (x i j - gridMean h w x) * (y i j - gridMean h w y)

/-- Model of `skimage.metrics.structural_similarity` on two `h × w`
grayscale matrices: the global SSIM index
`((2 μx μy + C1)(2 σxy + C2)) / ((μx² + μy² + C1)(σx² + σy² + C2))`
(the sliding-window averaging of the library is abstracted into the global
statistics; both give 1 on identical inputs, the only value the claims
use). -/
def ssim (h w : ℕ) (x y : ℕ → ℕ → ℚ) : ℚ :=
  ((2 * gridMean h w x * gridMean h w y + ssimC1) * (2 * covGrid h w x y + ssimC2)) /
    ((gridMean h w x ^ 2 + gridMean h w y ^ 2 + ssimC1) *
      (varGrid h w x + varGrid h w y + ssimC2))

/-- Clamp to the top histogram bin (totalisation of `v / 32` for pixel
data outside 0..255; on real uint8 data `v / 32 ≤ 7` already). -/
def clamp7 (v : ℕ) : ℕ := min v 7

/-- Bin index of pixel `(i, j)` in the 8×8×8 3-D colour histogram of
`cv2.calcHist([img], [0,1,2], None, [8,8,8], [0,256,0,256,0,256])`. -/
def histBin (img : Img) (i j : ℕ) : Fin 512 :=
  ⟨clamp7 (img.data i j 0 / 32) * 64 + clamp7 (img.data i j 1 / 32) * 8
    + clamp7 (img.data i j 2 / 32),
   by
     have h0 : clamp7 (img.data i j 0 / 32) ≤ 7 := min_le_right _ _
     have h1 : clamp7 (img.data i j 1 / 32) ≤ 7 := min_le_right _ _
     have h2 : clamp7 (img.data i j 2 / 32) ≤ 7 := min_le_right _ _
     omega⟩

/-- The 512 bin counts of the 3-D colour histogram of a 3-channel image. -/
def calcHistBins (img : Img) : Fin 512 → ℕ :=
  fun b => ((Finset.range img.h ×ˢ Finset.range img.w).filter
    fun p => histBin img p.1 p.2 = b).card

/-- Error message raised by `cv2.calcHist` when channel indices 1 and 2 are
requested on a single-channel array. -/
def calcHistChannelError : PyError :=
  "cv2.error: invalid channel index in function calcHist"

/-- Model of the `cv2.calcHist` call of `are_images_too_similar`: on a
2-D (grayscale) array the requested channels `[0, 1, 2]` are out of range
and cv2 raises; on a 3-channel array it returns the 512 bin counts. -/
def calcHist512 (img : Img) : Except PyError (Fin 512 → ℕ) :=
  if img.gray then .error calcHistChannelError else .ok (calcHistBins img)

/-- Total mass `Σ_b H(b)` of a histogram. -/
def histSum (H : Fin 512 → ℕ) : ℚ := ∑ b : Fin 512, (H b : ℚ)

/-- Scalar product `Σ_b H1(b)·H2(b)` of two histograms. -/
def histDot (H1 H2 : Fin 512 → ℕ) : ℚ := ∑ b : Fin 512, (H1 b : ℚ) * (H2 b : ℚ)

/-- Centered covariance numerator `Σ ab − (Σa)(Σb)/N` of the correlation. -/
def histCovNum (H1 H2 : Fin 512 → ℕ) : ℚ :=
  histDot H1 H2 - histSum H1 * histSum H2 / 512

/-- Centered variance term `Σ a² − (Σa)²/N` of the correlation. -/
def histVarNum (H : Fin 512 → ℕ) : ℚ := histDot H H - histSum H ^ 2 / 512

/-- Model of `cv2.compareHist(h1, h2, HISTCMP_CORREL)`: the Pearson
correlation `num / √(d1 d2)` of the two bin vectors, returning 1 when the
denominator vanishes (as the OpenCV implementation does).  The preceding
`cv2.normalize` L2 scaling of the source is dropped: Pearson correlation is
invariant under positive scaling of either argument, so the value is
unchanged. -/
noncomputable def compareHistCorrel (h1 h2 : Fin 512 → ℕ) : ℝ :=
  if histVarNum h1 * histVarNum h2 = 0 then 1
  else (histCovNum h1 h2 : ℝ) / Real.sqrt ((histVarNum h1 : ℝ) * (histVarNum h2 : ℝ))

/-- The difference hash of `_perceptual_hash`: resize the grayscale image to
9 columns × 8 rows and compare horizontally adjacent pixels. -/
def perceptual_hash (g : GrayImg) : ℕ → ℕ → Bool :=
  let r := resizeGray g 9 8
  fun i j => decide (r.px i j < r.px i (j+1))

/-- Hamming distance of two 64-bit difference hashes (`np.sum(h1 != h2)`). -/
def hashDistance (a b : ℕ → ℕ → Bool) : ℕ :=
  ((Finset.range 8 ×ˢ Finset.range 8).filter fun p => a p.1 p.2 ≠ b p.1 p.2).card

/-- Per-method similarity scores reported under the `details` key. -/
structure SimDetails where
  ssim : ℚ
  histogram : ℝ
  pixel_similarity : ℚ
  hash_similarity : ℚ

/-- Result dict of `are_images_too_similar`; optional fields model keys
present only on one of the two return paths. -/
structure SimResult where
  is_duplicate : Bool
  similarity_score : ℝ
  details : Option SimDetails := none
  method : Option String := none
  passed : Bool
  threshold_used : Option ℚ := none
  error : Option PyError := none

open Classical in
/-- The successful-path result of `are_images_too_similar`: the four
similarity estimators combined with weights 0.40/0.25/0.20/0.15 and
compared against the threshold. -/
noncomputable def simSuccess (threshold : ℚ) (image1 image2 : Img) : SimResult :=
  let img1r := resizeTo image1 256 256
  let img2r := resizeTo image2 256 256
  let g1 := cvtGray img1r
  let g2 := cvtGray img2r
  let ssimScore : ℚ := ssim 256 256 g1.px g2.px
  let histScore : ℝ := compareHistCorrel (calcHistBins img1r) (calcHistBins img2r)
  let pixelSimilarity : ℚ := 1 - gridMean 256 256 (fun i j => |g1.px i j - g2.px i j|) / 255
  let hashSimilarity : ℚ :=
    1 - (hashDistance (perceptual_hash g1) (perceptual_hash g2) : ℚ) / 64
  let combined : ℝ := (ssimScore : ℝ) * (40/100) + histScore * (25/100)
      + (pixelSimilarity : ℝ) * (20/100) + (hashSimilarity : ℝ) * (15/100)
  { is_duplicate := decide ((threshold : ℝ) ≤ combined),
    similarity_score := combined,
    details := some ⟨ssimScore, histScore, pixelSimilarity, hashSimilarity⟩,
    method := some "multi-method",
    passed := !(decide ((threshold : ℝ) ≤ combined)),
    threshold_used := some threshold }

/-- The `try` block of `are_images_too_similar`.  The single raise point of
the block on decoded images is the `cv2.calcHist` call, which fails on
single-channel input (checked here for both images in source order: the
histogram of image 1 is computed before that of image 2). -/
noncomputable def simTryBody (threshold : ℚ) (image1 image2 : Img) :
    Except PyError SimResult :=
  match calcHist512 (resizeTo image1 256 256), calcHist512 (resizeTo image2 256 256) with
  | .error e, _ => .error e
  | .ok _, .error e => .error e
  | .ok _, .ok _ => .ok (simSuccess threshold image1 image2)

/-- Source `ImageSimilarityDetector.are_images_too_similar`: run the try block,
failing open (`is_duplicate = False`, `passed = True`, score 0) on any
exception. -/
noncomputable def are_images_too_similar (threshold : ℚ) (image1 image2 : Img) :
    SimResult :=
  match simTryBody threshold image1 image2 with
  | .ok r => r
  | .error e =>
    { is_duplicate := false, similarity_score := 0, passed := true, error := some e }

/- ------------------------------------------------------------------
   app/core/liveness.py — LivenessDetector
   ------------------------------------------------------------------ -/

/-- A face rectangle `(top, right, bottom, left)` as returned by
`face_recognition.face_locations`. -/
abbrev FaceLoc := ℤ × ℤ × ℤ × ℤ

/-- Source `LivenessConfig` with the source's field defaults. -/
structure LivenessConfig where
  blur_threshold : ℚ := 100
  face_size_min : ℤ := 80
  face_size_max : ℤ := 800
  specular_reflection_min : ℚ := 20
  micro_texture_score_min : ℚ := 15/100
  depth_cue_score_min : ℚ := 3/10
  liveness_score_threshold : ℚ := 65/100

/-- Abstract numeric kernels of the external cv2/numpy/skimage calls used
by the liveness sub-checks (spec §6 treats these libraries as external
collaborators; the claims hold for every choice of kernels).  `sqrtQ`
models the float `np.sqrt`, `log2` the float `np.log2`. -/
structure LivenessPrims where
  laplacianVar : GrayImg → ℚ
  lbp : GrayImg → ℕ → ℕ → ℚ
  fftMag : GrayImg → ℕ → ℕ → ℚ
  sobelX : GrayImg → ℕ → ℕ → ℚ
  sobelY : GrayImg → ℕ → ℕ → ℚ
  sqrtQ : ℚ → ℚ
  log2 : ℚ → ℚ

/-- One sub-check's result dict: a `passed` verdict, an optional raw score
and an optional error text. -/
structure CheckRes where
  passed : Bool
  score : Option ℚ := none
  error : Option PyError := none

/-- Source `_check_blur`: Laplacian variance of the grayscale image against the
blur threshold. -/
def _check_blur (P : LivenessPrims) (cfg : LivenessConfig) (image : Img)
    (_ : FaceLoc) : Except PyError CheckRes :=
  .ok { passed := decide (cfg.blur_threshold < P.laplacianVar (cvtGray image)),
        score := some (P.laplacianVar (cvtGray image)) }

/-- Crop of an image to rows `[r0, r1)` and columns `[c0, c1)` (Python
slice semantics for nonnegative bounds: the slice clamps to the array
shape). -/
def cropImg (img : Img) (r0 r1 c0 c1 : ℕ) : Img :=
  ⟨min r1 img.h - min r0 img.h, min c1 img.w - min c0 img.w, img.gray,
   fun i j k => img.data (min r0 img.h + i) (min c0 img.w + j) k⟩

/-- Source `_detect_specular_reflections`: ratio (in %) of near-white pixels
(gray value > 200 after `cv2.threshold`) in the top 40 % of the face box.
On an empty region the ratio is `0/0 = 0` in this model, matching the
source's NaN which also fails the `>` comparison. -/
def _detect_specular_reflections (_P : LivenessPrims) (cfg : LivenessConfig)
    (image : Img) (faceLocation : FaceLoc) : Except PyError CheckRes :=
  let top := faceLocation.1
  let right := faceLocation.2.1
  let bottom := faceLocation.2.2.1
  let left := faceLocation.2.2.2
  let eyeRegion := cropImg image top.toNat
    (top.toNat + (bottom - top).toNat * 2 / 5) left.toNat right.toNat
  let g := cvtGray eyeRegion
  let brightCount := ((Finset.range g.h ×ˢ Finset.range g.w).filter
      fun p => 200 < g.px p.1 p.2).card
  let reflectionScore : ℚ := (brightCount : ℚ) / ((g.h : ℚ) * g.w) * 100
  .ok { passed := decide (cfg.specular_reflection_min < reflectionScore),
        score := some reflectionScore }

/-- Bin `k` of `np.histogram(lbp, bins=59, range=(0, 59))`: values in
`[k, k+1)`, the last bin closed at 59. -/
def lbpHist (P : LivenessPrims) (g : GrayImg) (k : ℕ) : ℕ :=
  ((Finset.range g.h ×ˢ Finset.range g.w).filter fun p =>
    (k : ℚ) ≤ P.lbp g p.1 p.2 ∧
      (P.lbp g p.1 p.2 < (k : ℚ) + 1 ∨ (k = 58 ∧ P.lbp g p.1 p.2 = 59))).card

/-- Source `_analyze_micro_texture`: Shannon entropy (via the float `np.log2`
kernel) of the normalised LBP histogram over its non-zero bins, divided by
the maximal entropy 5.9. -/
def _analyze_micro_texture (P : LivenessPrims) (cfg : LivenessConfig)
    (image : Img) (_ : FaceLoc) : Except PyError CheckRes :=
  let g := cvtGray image
  let total : ℚ := ∑ k ∈ Finset.range 59, (lbpHist P g k : ℚ)
  let prob : ℕ → ℚ := fun k => (lbpHist P g k : ℚ) / total
  let entropy : ℚ :=
    -∑ k ∈ (Finset.range 59).filter (fun k => 0 < prob k), prob k * P.log2 (prob k)
  let normalizedScore := entropy / (59/10)
  .ok { passed := decide (cfg.micro_texture_score_min < normalizedScore),
        score := some normalizedScore }

/-- Source `_detect_print_attack`: total FFT-magnitude energy in the central
quarter band `[h/4, 3h/4) × [w/4, 3w/4)` against the fixed `8e9` ceiling. -/
def _detect_print_attack (P : LivenessPrims) (_ : LivenessConfig)
    (image : Img) (_ : FaceLoc) : Except PyError CheckRes :=
  let g := cvtGray image
  let energy : ℚ := ∑ i ∈ Finset.Ico (g.h / 4) (3 * g.h / 4),
    ∑ j ∈ Finset.Ico (g.w / 4) (3 * g.w / 4), P.fftMag g i j
  .ok { passed := decide (energy < 8000000000), score := some energy }

/-- Source `_estimate_depth_cues`: coefficient of variation of the Sobel gradient
magnitude, halved and clamped to 1, against the depth-cue threshold. -/
def _estimate_depth_cues (P : LivenessPrims) (cfg : LivenessConfig)
    (image : Img) (_ : FaceLoc) : Except PyError CheckRes :=
  let g := cvtGray image
  let gm : ℕ → ℕ → ℚ := fun i j => P.sqrtQ (P.sobelX g i j ^ 2 + P.sobelY g i j ^ 2)
  let meanGm := gridMean g.h g.w gm
  let stdGm := P.sqrtQ (gridMean g.h g.w fun i j => (gm i j - meanGm)^2)
  let depthScore := min (stdGm / (meanGm + 1/1000000) / 2) 1
  .ok { passed := decide (cfg.depth_cue_score_min < depthScore),
        score := some depthScore }

/-- Source `_check_face_proportions` exactly as declared in the source: parameters
`(face_location, image_shape)`, where `image_shape` is never used by the
body; passes when face width and height both lie strictly inside the
configured size band. -/
def _check_face_proportions (cfg : LivenessConfig) (faceLocation : FaceLoc)
    (_ : ℕ × ℕ) : CheckRes :=
  let top := faceLocation.1
  let right := faceLocation.2.1
  let bottom := faceLocation.2.2.1
  let left := faceLocation.2.2.2
  { passed := decide (cfg.face_size_min < right - left ∧
      right - left < cfg.face_size_max ∧ cfg.face_size_min < bottom - top ∧
      bottom - top < cfg.face_size_max) }

/-- Error text of unpacking an ndarray with first axis ≠ 4 into 4 names. -/
def unpackImageError : PyError :=
  "ValueError: cannot unpack image array into top, right, bottom, left"

/-- Error text of taking the truth value of a multi-element array. -/
def ambiguousTruthError : PyError :=
  "ValueError: the truth value of an array with more than one element is ambiguous"

/-- The dispatcher (`check`, lines 51-56) calls every sub-check as
`check_fn(image, face_location)`, but `_check_face_proportions` is declared
with parameters `(face_location, image_shape)`: the image ndarray arrives
in its `face_location` parameter and the real face tuple in the unused
`image_shape` one.  `top, right, bottom, left = face_location` then unpacks
the image's rows, raising `ValueError` unless the image has exactly 4 rows,
and the chained comparisons on whole row arrays raise `ValueError`
(ambiguous truth value) unless each row holds exactly one scalar, i.e.
the image is a 4×1 grayscale array. -/
def _check_face_proportions_dispatched (cfg : LivenessConfig) (image : Img)
    (_ : FaceLoc) : Except PyError CheckRes :=
  if image.h = 4 then
    if image.w = 1 ∧ image.gray = true then
      .ok (_check_face_proportions cfg
        ((image.data 0 0 0 : ℤ), (image.data 1 0 0 : ℤ),
         (image.data 2 0 0 : ℤ), (image.data 3 0 0 : ℤ))
        (image.h, image.w))
    else .error ambiguousTruthError
  else .error unpackImageError

/-- The `self._checks` list: the six sub-checks in registration order, each
invoked by the dispatcher as `check_fn(image, face_location)`. -/
def livenessChecks (P : LivenessPrims) (cfg : LivenessConfig) :
    List (Img → FaceLoc → Except PyError CheckRes) :=
  [_check_blur P cfg, _detect_specular_reflections P cfg,
   _analyze_micro_texture P cfg, _detect_print_attack P cfg,
   _estimate_depth_cues P cfg, _check_face_proportions_dispatched cfg]

/-- The per-check `try/except` of the dispatch loop: an exception is
recorded as `{'passed': False, 'error': str(e)}`. -/
def runLivenessCheck (f : Img → FaceLoc → Except PyError CheckRes)
    (image : Img) (faceLocation : FaceLoc) : CheckRes :=
  match f image faceLocation with
  | .ok r => r
  | .error e => { passed := false, error := some e }

/-- The `'low'/'medium'/'high'` confidence band strings. -/
inductive ConfBand | low | medium | high

/-- The liveness result dict; `none` models a Python `None` value or an
absent key on paths that do not set it.  `checks_passed` keeps the
`"k/n"` string as the pair `(k, n)`; `checks` keeps the per-check dict as
a list in registration order. -/
structure LivenessRes where
  is_live : Bool
  liveness_score : Option ℚ := none
  checks_passed : Option (ℕ × ℕ) := none
  confidence : Option ConfBand := none
  checks : Option (List CheckRes) := none
  error : Option PyError := none

/-- Aggregation of `LivenessDetector.check` once a face location is fixed:
run the six sub-checks through the per-check `try/except`, score
`checks_passed / total_checks`, and band the confidence (the source
hardcodes the 0.8/0.65 band bounds). -/
def runAllLivenessChecks (P : LivenessPrims) (cfg : LivenessConfig)
    (image : Img) (faceLocation : FaceLoc) : LivenessRes :=
  let results := (livenessChecks P cfg).map fun f => runLivenessCheck f image faceLocation
  let checksPassed := results.countP (·.passed)
  let totalChecks := results.length
  let livenessScore : ℚ := if 0 < totalChecks then (checksPassed : ℚ) / totalChecks else 0
  { is_live := decide (cfg.liveness_score_threshold ≤ livenessScore),
    liveness_score := some livenessScore,
    checks_passed := some (checksPassed, totalChecks),
    checks := some results,
    confidence := some (if 8/10 < livenessScore then ConfBand.high
      else if 65/100 < livenessScore then ConfBand.medium else ConfBand.low) }

/-- The early-return dict of `check` when no face can be found. -/
def noFaceResult : LivenessRes :=
  { is_live := false, liveness_score := some 0, error := some "No face detected",
    checks := some [] }

/-- Source `LivenessDetector.check`: use the supplied face location if any,
otherwise locate faces through the external
`face_recognition.face_locations` call (which sits outside any
`try/except` and may itself raise); with no face found return the
hard-failure dict without running any sub-check, and with a face (the
source takes `face_locations[0]`) run all six sub-checks. -/
def LivenessDetector.check (P : LivenessPrims) (cfg : LivenessConfig)
    (faceLocations : Img → Except PyError (List FaceLoc)) (image : Img)
    (faceLocation : Option FaceLoc) : Except PyError LivenessRes :=
  match faceLocation with
  | some loc => .ok (runAllLivenessChecks P cfg image loc)
  | none =>
    match faceLocations image with
    | .error e => .error e
    | .ok [] => .ok noFaceResult
    | .ok (loc :: _) => .ok (runAllLivenessChecks P cfg image loc)

/- ------------------------------------------------------------------
   app/core/document_detection.py — security features, is_just_a_face
   ------------------------------------------------------------------ -/

/-- HSV value channel V = max(B, G, R). -/
def hsvV (img : Img) (i j : ℕ) : ℕ :=
  max (img.data i j 0) (max (img.data i j 1) (img.data i j 2))

/-- Minimum colour channel, used by the saturation formula. -/
def hsvMinC (img : Img) (i j : ℕ) : ℕ :=
  min (img.data i j 0) (min (img.data i j 1) (img.data i j 2))

/-- HSV saturation S = 255·(V − min)/V (0 when V = 0), exact rational. -/
def hsvS (img : Img) (i j : ℕ) : ℚ :=
  if hsvV img i j = 0 then 0
  else 255 * ((hsvV img i j : ℚ) - hsvMinC img i j) / hsvV img i j

/-- Result dict of `_detect_security_features`. -/
structure SecurityRes where
  detected : Bool
  shiny_ratio : Option ℚ := none
  shiny_pixels : Option ℕ := none
  reason : Option String := none
  error : Option PyError := none

/-- Error raised by `cv2.cvtColor` on an empty source image. -/
def emptyImageError : PyError := "cv2.error: empty source image in cvtColor"

/-- The try block of `_detect_security_features`: a 2-D array passes (fail
open, "grayscale image - assumed present"); on a 3-channel array
`cv2.cvtColor(..., COLOR_BGR2HSV)` raises on an empty image, otherwise the
`cv2.inRange(hsv, [0,0,180], [180,120,255])` mask ratio is computed (the
hue bound is vacuous since cv2 hue stays within [0,179]). -/
def securityTryBody (image : Img) : Except PyError SecurityRes :=
  if image.gray then
    .ok { detected := true, reason := some "grayscale image - assumed present" }
  else if image.h * image.w = 0 then .error emptyImageError
  else
    let shinyPixels := ((Finset.range image.h ×ˢ Finset.range image.w).filter
      fun p => hsvS image p.1 p.2 ≤ 120 ∧ 180 ≤ hsvV image p.1 p.2).card
    let shinyRatio : ℚ := (shinyPixels : ℚ) / ((image.h : ℚ) * image.w)
    .ok { detected := decide (5/1000 ≤ shinyRatio ∧ shinyRatio ≤ 15/100),
          shiny_ratio := some shinyRatio, shiny_pixels := some shinyPixels }

/-- Source `_detect_security_features`: fail open (`detected = True`) on any
exception in the try block. -/
def _detect_security_features (image : Img) : SecurityRes :=
  match securityTryBody image with
  | .ok r => r
  | .error e => { detected := true, error := some e }

/-- Result dict of `is_just_a_face`. -/
structure FaceOnlyRes where
  is_just_face : Bool
  face_area_ratio : Option ℚ := none
  reason : Option String := none
  passed : Option Bool := none
  error : Option PyError := none

/-- The sort key `(f[2] − f[0]) · (f[1] − f[3])` used to pick the largest
face (tuple order top, right, bottom, left). -/
def faceKeyArea (f : FaceLoc) : ℤ := (f.2.2.1 - f.1) * (f.2.1 - f.2.2.2)

/-- Python `max(face_locations, key=...)`: the first element attaining the
maximal key. -/
def largestFace (l : FaceLoc) (ls : List FaceLoc) : FaceLoc :=
  ls.foldl (fun best f => if faceKeyArea best < faceKeyArea f then f else best) l

/-- Error raised by `face_area / image_area` on a zero-area image. -/
def zeroAreaError : PyError := "ZeroDivisionError: division by zero"

/-- The try block of `is_just_a_face`: locate faces (the external call can
raise); with none found return "not just a face"; otherwise compare the
largest face's area ratio against the 0.60 cut (the `int / int` division
raises ZeroDivisionError on a zero-area image). -/
def isJustFaceTryBody (faceLocations : Img → Except PyError (List FaceLoc))
    (image : Img) : Except PyError FaceOnlyRes :=
  match faceLocations image with
  | .error e => .error e
  | .ok [] => .ok { is_just_face := false, reason := some "no face detected" }
  | .ok (l :: ls) =>
    if image.h * image.w = 0 then .error zeroAreaError
    else
      let f := largestFace l ls
      let faceArea : ℤ := (f.2.2.1 - f.1) * (f.2.1 - f.2.2.2)
      let faceRatio : ℚ := (faceArea : ℚ) / ((image.h : ℚ) * image.w)
      .ok { is_just_face := decide ((3 : ℚ)/5 < faceRatio),
            face_area_ratio := some faceRatio,
            passed := some (!decide ((3 : ℚ)/5 < faceRatio)) }

/-- Source `is_just_a_face`: fail open (`is_just_face = False`, `passed = True`)
on any exception. -/
def is_just_a_face (faceLocations : Img → Except PyError (List FaceLoc))
    (image : Img) : FaceOnlyRes :=
  match isJustFaceTryBody faceLocations image with
  | .ok r => r
  | .error e => { is_just_face := false, error := some e, passed := some true }

/- ------------------------------------------------------------------
   app/core/document_auth.py — DocumentAuthenticator
   ------------------------------------------------------------------ -/

/-- Abstract kernels of the external cv2/numpy calls of the tamper check:
`gaussianBlur5` models `cv2.GaussianBlur(cell, (5,5), 0)`, `sqrtQ` the
float square root inside `np.std`. -/
structure DocPrims where
  gaussianBlur5 : GrayImg → ℕ → ℕ → ℚ
  sqrtQ : ℚ → ℚ

/-- Result dict of `_detect_tampering`; `passed : Option Bool` models
presence of the `'passed'` dict key (set on both return paths). -/
structure TamperRes where
  is_tampered : Bool
  uniformity : Option ℚ := none
  passed : Option Bool := none
  error : Option PyError := none

/-- Error raised by `cv2.GaussianBlur` on an empty grid cell. -/
def smallImageError : PyError := "cv2.error: GaussianBlur on empty cell"

/-- Model of `np.mean` of a list (0 on the empty list by rational 0/0 = 0). -/
def listMean (xs : List ℚ) : ℚ := xs.sum / (xs.length : ℚ)

/-- Model of `np.std` of a list via the float square-root kernel. -/
def listStd (sq : ℚ → ℚ) (xs : List ℚ) : ℚ :=
  sq (listMean (xs.map fun x => (x - listMean xs)^2))

/-- Noise estimate of grid cell `(i, j)`: std of `|cell − blur(cell)|`. -/
def cellNoise (P : DocPrims) (g : GrayImg) (cellH cellW i j : ℕ) : ℚ :=
  let cell : GrayImg := ⟨cellH, cellW, fun a b => g.px (i * cellH + a) (j * cellW + b)⟩
  listStd P.sqrtQ ((List.range cellH).product (List.range cellW) |>.map
    fun p => |cell.px p.1 p.2 - P.gaussianBlur5 cell p.1 p.2|)

/-- The try block of `_detect_tampering`: 4×4 grid of local noise
estimates (`cv2.GaussianBlur` raises when the image is smaller than the
grid and a cell is empty), uniformity `1 − min(std/(mean + 1e-6), 1)`,
tampered below 0.7. -/
def tamperTryBody (P : DocPrims) (image : Img) : Except PyError TamperRes :=
  if (cvtGray image).h / 4 = 0 ∨ (cvtGray image).w / 4 = 0 then .error smallImageError
  else
    let g := cvtGray image
    let cellH := g.h / 4
    let cellW := g.w / 4
    let noiseLevels := (List.range 4).product (List.range 4) |>.map
      fun p => cellNoise P g cellH cellW p.1 p.2
    let uniformity : ℚ :=
      1 - min (listStd P.sqrtQ noiseLevels / (listMean noiseLevels + 1/1000000)) 1
    .ok { is_tampered := decide (uniformity < 7/10), uniformity := some uniformity,
          passed := some (!decide (uniformity < 7/10)) }

/-- Source `_detect_tampering`: exceptions become
`{'is_tampered': True, 'passed': False, 'error': ...}` (fail closed). -/
def _detect_tampering (P : DocPrims) (image : Img) : TamperRes :=
  match tamperTryBody P image with
  | .ok r => r
  | .error e => { is_tampered := true, passed := some false, error := some e }

/-- Result dict of `check_authenticity`. -/
structure DocAuthRes where
  is_authentic : Bool
  authenticity_score : Option ℚ := none
  checks_passed : Option (ℕ × ℕ) := none
  checks : Option TamperRes := none
  error : Option PyError := none

/-- Source `DocumentAuthenticator.check_authenticity(image)` as invoked by the
pipeline (no `structured_data`, so only the tampering check runs): count
the result dicts carrying a `'passed'` key (`total_checks`) and those
whose `'passed'` is truthy (`checks_passed`); score `passed/total × 100`,
falling back to the neutral 50.0 only when no check executed. -/
def check_authenticity (P : DocPrims) (minScore : ℚ) (image : Img) : DocAuthRes :=
  let tampering := _detect_tampering P image
  let checksPassed : ℕ := if tampering.passed = some true then 1 else 0
  let totalChecks : ℕ := if tampering.passed.isSome then 1 else 0
  let authenticityScore : ℚ :=
    if 0 < totalChecks then (checksPassed : ℚ) / (totalChecks : ℚ) * 100 else 50
  { is_authentic := decide (minScore ≤ authenticityScore),
    authenticity_score := some authenticityScore,
    checks_passed := some (checksPassed, totalChecks),
    checks := some tampering }

/- ------------------------------------------------------------------
   app/services/verification_service.py — VerificationService
   ------------------------------------------------------------------ -/

/-- The `VerificationStatus` enum. -/
inductive VerificationStatus | approved | rejected | manual_review | error

/-- The `.value` strings of the enum. -/
def VerificationStatus.value : VerificationStatus → String
  | .approved => "approved"
  | .rejected => "rejected"
  | .manual_review => "manual_review"
  | .error => "error"

/-- Result dict of `FaceMatcher.match_faces`. -/
structure FaceMatchRes where
  matched : Bool
  confidence : Option ℚ := none
  distance : Option ℚ := none
  strategy : Option String := none
  threshold_used : Option ℚ := none
  error : Option PyError := none

/-- Result dict of `DeepfakeDetector.detect`. -/
structure DeepfakeRes where
  is_real : Bool
  confidence : Option ℚ := none
  label : Option String := none
  model_available : Option Bool := none
  error : Option PyError := none

/-- Result dict of `detect_document_structure` as consumed by the
pipeline's structure gate (the per-feature sub-dicts are not read by the
service and are elided). -/
structure DocStructureRes where
  has_document : Bool
  confidence : ℚ
  passed : Bool
  threshold_used : ℚ

/-- User-facing messages of the pipeline; the f-string embedding of the
numeric confidence is kept structurally as a constructor argument. -/
inductive Message
  | fraudDuplicate
  | invalidDocumentStructure
  | invalidDocumentJustFace
  | identityVerified (confidence : ℚ)
  | manualReviewRequired (confidence : ℚ)
  | verificationFailed (confidence : ℚ)

/-- Source `_get_message`. -/
def _get_message (status : VerificationStatus) (confidence : ℚ) : Message :=
  match status with
  | .approved => .identityVerified confidence
  | .manual_review => .manualReviewRequired confidence
  | _ => .verificationFailed confidence

/-- The merged results dict of `_run_parallel_checks`. -/
structure ParallelResults where
  liveness_check : LivenessRes
  deepfake_check : DeepfakeRes
  document_authenticity : DocAuthRes
  face_match : FaceMatchRes

/-- The injected detector callables of `VerificationService` (constructor
dependency injection as in the source).  The four parallel-stage
detectors may raise — their invocations are wrapped in `try/except` —
while the three gate detectors catch internally and always return a
dict. -/
structure Service where
  liveness_detector : Img → Except PyError LivenessRes
  face_matcher : Img → Img → Except PyError FaceMatchRes
  doc_checker : Img → Except PyError DocAuthRes
  deepfake_detector : Img → Except PyError DeepfakeRes
  similarity_detector : Img → Img → SimResult
  document_structure_detector : Img → DocStructureRes
  just_face_detector : Img → FaceOnlyRes

/-- Defaulted liveness dict stored by the parallel-stage exception handler
(all score keys Python `None`). -/
def defaultedLiveness (e : PyError) : LivenessRes :=
  { is_live := false, error := some e }

/-- Defaulted deepfake dict of the exception handler. -/
def defaultedDeepfake (e : PyError) : DeepfakeRes :=
  { is_real := false, error := some e }

/-- Defaulted document-authenticity dict of the exception handler. -/
def defaultedDocAuth (e : PyError) : DocAuthRes :=
  { is_authentic := false, error := some e }

/-- Defaulted face-match dict of the exception handler (confidence 0.0,
not `None`). -/
def defaultedFaceMatch (e : PyError) : FaceMatchRes :=
  { matched := false, confidence := some 0, error := some e }

/-- Source `_run_parallel_checks`: the four checks run in order, each under its
own `try/except` converting an exception into a defaulted dict carrying
the error text. -/
def _run_parallel_checks (svc : Service) (idDocument selfie : Img) : ParallelResults :=
  { liveness_check := match svc.liveness_detector selfie with
      | .ok r => r
      | .error e => defaultedLiveness e,
    deepfake_check := match svc.deepfake_detector selfie with
      | .ok r => r
      | .error e => defaultedDeepfake e,
    document_authenticity := match svc.doc_checker idDocument with
      | .ok r => r
      | .error e => defaultedDocAuth e,
    face_match := match svc.face_matcher idDocument selfie with
      | .ok r => r
      | .error e => defaultedFaceMatch e }

/-- TypeError raised by `None * 100` (and by the analogous arithmetic on a
`None` score) inside `_make_decision`. -/
def noneTimesIntError : PyError :=
  "TypeError: unsupported operand type for *: NoneType and int"

/-- Score extraction in `_make_decision`: a present numeric value is used;
a Python `None` (as stored by the parallel-stage exception handlers)
raises `TypeError` at the arithmetic applied to it.  The numeric `.get`
defaults (0 resp. 0.5) only apply to an absent key, which no reachable
result dict has. -/
def pyNum : Option ℚ → Except PyError ℚ
  | some v => .ok v
  | none => .error noneTimesIntError

/-- The decision triple of `_make_decision`. -/
structure Decision where
  status : VerificationStatus
  overall_confidence : ℚ
  message : Message

/-- Source `_make_decision`: weighted overall confidence
`liveness×100×0.20 + face×0.50 + auth×0.10 + deepfake×100×0.20` and the
75/55 status cut-points. -/
def _make_decision (results : ParallelResults) : Except PyError Decision :=
  match pyNum results.liveness_check.liveness_score with
  | .error e => .error e
  | .ok ls =>
    match pyNum results.face_match.confidence with
    | .error e => .error e
    | .ok fc =>
      match pyNum results.document_authenticity.authenticity_score with
      | .error e => .error e
      | .ok auth =>
        match pyNum results.deepfake_check.confidence with
        | .error e => .error e
        | .ok dc =>
          let livenessScore := ls * 100
          let deepfakeConf := dc * 100
          let overall := livenessScore * (20/100) + fc * (50/100)
            + auth * (10/100) + deepfakeConf * (20/100)
          let status := if 75 ≤ overall then VerificationStatus.approved
            else if 55 ≤ overall then VerificationStatus.manual_review
            else VerificationStatus.rejected
          .ok ⟨status, overall, _get_message status overall⟩

/-- The response dict of `verify_identity`; `status` holds the enum's
`.value` string; optional fields model keys present only on some paths. -/
structure VerifyResponse where
  status : String
  overall_confidence : ℚ
  message : Message
  similarity_check : SimResult
  document_structure : Option DocStructureRes := none
  face_only_check : Option FaceOnlyRes := none
  face_match : FaceMatchRes
  liveness_check : LivenessRes
  deepfake_check : DeepfakeRes
  document_authenticity : DocAuthRes

/-- Sentinel reason of the duplicate-gate rejection. -/
def duplicateSentinel : PyError := "Duplicate image detected"

/-- Sentinel reason of the structure-gate rejection. -/
def noDocumentSentinel : PyError := "No document detected"

/-- Sentinel reason of the face-only-gate rejection. -/
def justFaceSentinel : PyError := "Document is just a face"

/-- Skipped-check face-match dict of a short-circuit rejection. -/
def sentinelFaceMatch (e : PyError) : FaceMatchRes :=
  { matched := false, confidence := some 0, distance := none, strategy := none,
    error := some e }

/-- Skipped-check liveness dict of a short-circuit rejection (all score
keys Python `None`). -/
def sentinelLiveness (e : PyError) : LivenessRes :=
  { is_live := false, liveness_score := none, checks_passed := none,
    confidence := none, checks := none, error := some e }

/-- Skipped-check deepfake dict of a short-circuit rejection. -/
def sentinelDeepfake (e : PyError) : DeepfakeRes :=
  { is_real := false, confidence := none, label := none,
    model_available := none, error := some e }

/-- Skipped-check document-authenticity dict of a short-circuit
rejection. -/
def sentinelDocAuth (e : PyError) : DocAuthRes :=
  { is_authentic := false, authenticity_score := none, checks_passed := none,
    checks := none, error := some e }

/-- Detector invocations, recorded in call order by the embedding so that
non-invocation properties of the short-circuit gates can be stated. -/
inductive Step
  | similarity
  | documentStructure
  | justFace
  | liveness
  | deepfake
  | documentAuth
  | faceMatch

/-- Source `verify_identity`: the duplicate gate, the document-structure gate and
the face-only gate, then the four parallel checks and the final decision.
Returns the response (or the exception propagated out of
`_make_decision`) together with the list of detector invocations in call
order. -/
def verify_identity (svc : Service) (idDocument selfie : Img) :
    Except PyError VerifyResponse × List Step :=
  let similarityCheck := svc.similarity_detector idDocument selfie
  if similarityCheck.is_duplicate then
    (.ok { status := VerificationStatus.rejected.value, overall_confidence := 0,
           message := .fraudDuplicate, similarity_check := similarityCheck,
           face_match := sentinelFaceMatch duplicateSentinel,
           liveness_check := sentinelLiveness duplicateSentinel,
           deepfake_check := sentinelDeepfake duplicateSentinel,
           document_authenticity := sentinelDocAuth duplicateSentinel },
     [Step.similarity])
  else
    let docStructureCheck := svc.document_structure_detector idDocument
    if !docStructureCheck.has_document then
      (.ok { status := VerificationStatus.rejected.value, overall_confidence := 0,
             message := .invalidDocumentStructure,
             document_structure := some docStructureCheck,
             similarity_check := similarityCheck,
             face_match := sentinelFaceMatch noDocumentSentinel,
             liveness_check := sentinelLiveness noDocumentSentinel,
             deepfake_check := sentinelDeepfake noDocumentSentinel,
             document_authenticity := sentinelDocAuth noDocumentSentinel },
       [Step.similarity, Step.documentStructure])
    else
      let faceOnlyCheck := svc.just_face_detector idDocument
      if faceOnlyCheck.is_just_face then
        (.ok { status := VerificationStatus.rejected.value, overall_confidence := 0,
               message := .invalidDocumentJustFace,
               document_structure := some docStructureCheck,
               face_only_check := some faceOnlyCheck,
               similarity_check := similarityCheck,
               face_match := sentinelFaceMatch justFaceSentinel,
               liveness_check := sentinelLiveness justFaceSentinel,
               deepfake_check := sentinelDeepfake justFaceSentinel,
               document_authenticity := sentinelDocAuth justFaceSentinel },
         [Step.similarity, Step.documentStructure, Step.justFace])
      else
        let results := _run_parallel_checks svc idDocument selfie
        let fullTrace := [Step.similarity, Step.documentStructure, Step.justFace,
          Step.liveness, Step.deepfake, Step.documentAuth, Step.faceMatch]
        match _make_decision results with
        | .error e => (.error e, fullTrace)
        | .ok dec =>
          (.ok { status := dec.status.value,
                 overall_confidence := dec.overall_confidence,
                 message := dec.message,
                 similarity_check := similarityCheck,
                 document_structure := some docStructureCheck,
                 face_match := results.face_match,
                 liveness_check := results.liveness_check,
                 deepfake_check := results.deepfake_check,
                 document_authenticity := results.document_authenticity },
           fullTrace)

/- ------------------------------------------------------------------
   Spec-side definitions (for refinement statements) and concrete
   fixtures used by witness theorems
   ------------------------------------------------------------------ -/

/-- The decision formula exactly as the spec states it (weights
0.20/0.50/0.10/0.20 over liveness×100, face confidence, authenticity
score and deepfake confidence×100). -/
def overallSpec (ls fc auth dc : ℚ) : ℚ :=
  ls * 100 * (20/100) + fc * (50/100) + auth * (10/100) + dc * 100 * (20/100)

/-- The status mapping exactly as the spec states it:
`≥75 → approved`, `[55,75) → manual_review`, `<55 → rejected`. -/
def statusSpec (overall : ℚ) : VerificationStatus :=
  if 75 ≤ overall then .approved
  else if 55 ≤ overall then .manual_review
  else .rejected

/-- A parallel-results dict with all four numeric scores present, as
produced when every one of the four checks returns normally. -/
def mkParallelScores (ls fc auth dc : ℚ) : ParallelResults :=
  { liveness_check := { is_live := true, liveness_score := some ls },
    deepfake_check := { is_real := true, confidence := some dc },
    document_authenticity := { is_authentic := true, authenticity_score := some auth },
    face_match := { matched := true, confidence := some fc } }

/-- A 1×1 grayscale (2-D) image. -/
def grayUnitImg : Img := ⟨1, 1, true, fun _ _ _ => 0⟩

/-- An empty (0-row) 3-channel image. -/
def emptyColorImg : Img := ⟨0, 3, false, fun _ _ _ => 0⟩

/-- A black 10×10 3-channel image. -/
def img10 : Img := ⟨10, 10, false, fun _ _ _ => 0⟩

/-- A face box of width and height 180, strictly inside the (80, 800)
size band of the default config. -/
def loc180 : FaceLoc := (10, 190, 190, 10)

/-- Liveness kernels that return 0 everywhere. -/
def trivPrims : LivenessPrims :=
  ⟨fun _ => 0, fun _ _ _ => 0, fun _ _ _ => 0, fun _ _ _ => 0, fun _ _ _ => 0,
   fun _ => 0, fun _ => 0⟩

/-- Document kernels that return 0 everywhere. -/
def trivDocPrims : DocPrims := ⟨fun _ _ _ => 0, fun _ => 0⟩

/-- The default `LivenessConfig`. -/
def cfg0 : LivenessConfig := {}

/-- A face locator that finds no face. -/
def emptyLocator : Img → Except PyError (List FaceLoc) := fun _ => .ok []

/-- A face locator that raises. -/
def crashLocator : Img → Except PyError (List FaceLoc) :=
  fun _ => .error "face_recognition crashed"

/-- A face locator that finds exactly the 180×180 face box. -/
def oneFaceLocator : Img → Except PyError (List FaceLoc) :=
  fun _ => .ok [loc180]

/-- A similarity result reporting a duplicate. -/
noncomputable def simDupStub : SimResult :=
  { is_duplicate := true, similarity_score := 1, passed := false }

/-- A similarity result reporting no duplicate. -/
noncomputable def simOkStub : SimResult :=
  { is_duplicate := false, similarity_score := 0, passed := true }

/-- A passing document-structure result. -/
def dsOkStub : DocStructureRes :=
  { has_document := true, confidence := 1, passed := true, threshold_used := 25/100 }

/-- A negative face-only result. -/
def foOkStub : FaceOnlyRes := { is_just_face := false }

/-- A successful face-match result. -/
def fmOkStub : FaceMatchRes :=
  { matched := true, confidence := some 90, distance := some (1/10),
    strategy := some "face_recognition", threshold_used := some (1/2) }

/-- A successful deepfake result. -/
def dfOkStub : DeepfakeRes :=
  { is_real := true, confidence := some (9/10), label := some "Real",
    model_available := some true }

/-- A successful document-authenticity result. -/
def daOkStub : DocAuthRes :=
  { is_authentic := true, authenticity_score := some 100, checks_passed := some (1, 1) }

/-- A successful liveness result. -/
def lvOkStub : LivenessRes :=
  { is_live := true, liveness_score := some (5/6), checks_passed := some (5, 6) }

/-- A service whose similarity detector reports a duplicate. -/
noncomputable def svcDup : Service :=
  { liveness_detector := fun _ => .ok lvOkStub,
    face_matcher := fun _ _ => .ok fmOkStub,
    doc_checker := fun _ => .ok daOkStub,
    deepfake_detector := fun _ => .ok dfOkStub,
    similarity_detector := fun _ _ => simDupStub,
    document_structure_detector := fun _ => dsOkStub,
    just_face_detector := fun _ => foOkStub }

/-- A service that passes all three gates and whose liveness detector
raises. -/
noncomputable def svcLivenessBoom : Service :=
  { svcDup with
    similarity_detector := fun _ _ => simOkStub,
    liveness_detector := fun _ => .error "boom" }

/- ==================================================================
   Theorems
   ================================================================== -/

theorem gridSum_nonneg (h w : ℕ) (f : ℕ → ℕ → ℚ) (hf : ∀ i j, 0 ≤ f i j) :
    0 ≤ gridSum h w f :=
  Finset.sum_nonneg fun i _ => Finset.sum_nonneg fun j _ => hf i j

theorem gridMean_nonneg (h w : ℕ) (f : ℕ → ℕ → ℚ) (hf : ∀ i j, 0 ≤ f i j) :
    0 ≤ gridMean h w f := by
  unfold gridMean
  apply div_nonneg (gridSum_nonneg h w f hf)
  positivity

theorem varGrid_nonneg (h w : ℕ) (x : ℕ → ℕ → ℚ) : 0 ≤ varGrid h w x :=
  gridMean_nonneg _ _ _ fun _ _ => sq_nonneg _

theorem covGrid_self (h w : ℕ) (x : ℕ → ℕ → ℚ) : covGrid h w x x = varGrid h w x := by
  unfold covGrid varGrid
  congr 1
  funext i j
  ring

theorem ssim_self (h w : ℕ) (x : ℕ → ℕ → ℚ) : ssim h w x x = 1 := by
  have hm := sq_nonneg (gridMean h w x)
  have hv := varGrid_nonneg h w x
  have hC1 : (0:ℚ) < ssimC1 := by norm_num [ssimC1]
  have hC2 : (0:ℚ) < ssimC2 := by norm_num [ssimC2]
  have hd1 : (0:ℚ) < gridMean h w x ^ 2 + gridMean h w x ^ 2 + ssimC1 := by linarith
  have hd2 : (0:ℚ) < varGrid h w x + varGrid h w x + ssimC2 := by linarith
  unfold ssim
  rw [covGrid_self]
  have heq : (2 * gridMean h w x * gridMean h w x + ssimC1) * (2 * varGrid h w x + ssimC2)
      = (gridMean h w x ^ 2 + gridMean h w x ^ 2 + ssimC1)
        * (varGrid h w x + varGrid h w x + ssimC2) := by ring
  rw [heq, div_self (ne_of_gt (mul_pos hd1 hd2))]

theorem histCovNum_self (H : Fin 512 → ℕ) : histCovNum H H = histVarNum H := by
  unfold histCovNum histVarNum
  ring

theorem histVarNum_nonneg (H : Fin 512 → ℕ) : 0 ≤ histVarNum H := by
  have h := @sq_sum_le_card_mul_sum_sq (Fin 512) ℚ _ _ Finset.univ (fun b => (H b : ℚ))
  rw [Finset.card_univ, Fintype.card_fin] at h
  have h2 : histSum H ^ 2 ≤ 512 * histDot H H := by
    unfold histSum histDot
    have h3 : ∑ b : Fin 512, (H b : ℚ) * (H b : ℚ) = ∑ b : Fin 512, (H b : ℚ) ^ 2 :=
      Finset.sum_congr rfl fun b _ => (pow_two _).symm
    rw [h3]
    exact_mod_cast h
  unfold histVarNum
  rw [sub_nonneg, div_le_iff₀ (by norm_num : (0:ℚ) < 512)]
  linarith

theorem compareHistCorrel_self (H : Fin 512 → ℕ) : compareHistCorrel H H = 1 := by
  unfold compareHistCorrel
  by_cases hz : histVarNum H * histVarNum H = 0
  · rw [if_pos hz]
  · rw [if_neg hz]
    have hvne : histVarNum H ≠ 0 := by
      intro h0
      exact hz (by rw [h0]; ring)
    have hvpos : (0:ℚ) < histVarNum H :=
      lt_of_le_of_ne (histVarNum_nonneg H) (Ne.symm hvne)
    have hcast : (0:ℝ) ≤ (histVarNum H : ℝ) := by exact_mod_cast le_of_lt hvpos
    rw [histCovNum_self, Real.sqrt_mul_self hcast]
    exact div_self (by exact_mod_cast hvne)

theorem gridMean_diff_self (h w : ℕ) (g : ℕ → ℕ → ℚ) :
    gridMean h w (fun i j => |g i j - g i j|) = 0 := by
  unfold gridMean gridSum
  simp

theorem hashDistance_self (a : ℕ → ℕ → Bool) : hashDistance a a = 0 := by
  unfold hashDistance
  simp

/-- C7: for every 3-channel image, `are_images_too_similar(img, img)`
returns `similarity_score = 1.0` and `is_duplicate = true` for any
threshold at most 1.0: all four component similarities (SSIM, histogram
correlation, pixel similarity, perceptual-hash similarity) equal 1 on
identical inputs and the weights 0.40 + 0.25 + 0.20 + 0.15 sum to 1. -/
theorem identical_image_is_duplicate (h w : ℕ) (d : ℕ → ℕ → ℕ → ℕ)
    (threshold : ℚ) (hθ : threshold ≤ 1) :
    (are_images_too_similar threshold ⟨h, w, false, d⟩ ⟨h, w, false, d⟩).similarity_score = 1 ∧
    (are_images_too_similar threshold ⟨h, w, false, d⟩ ⟨h, w, false, d⟩).details
      = some ⟨1, 1, 1, 1⟩ ∧
    (are_images_too_similar threshold ⟨h, w, false, d⟩ ⟨h, w, false, d⟩).is_duplicate = true ∧
    (are_images_too_similar threshold ⟨h, w, false, d⟩ ⟨h, w, false, d⟩).passed = false ∧
    ((40 : ℚ)/100 + 25/100 + 20/100 + 15/100) = 1 := by
  have hred : are_images_too_similar threshold ⟨h, w, false, d⟩ ⟨h, w, false, d⟩
      = simSuccess threshold ⟨h, w, false, d⟩ ⟨h, w, false, d⟩ := rfl
  have hssim := ssim_self 256 256 (cvtGray (resizeTo (⟨h, w, false, d⟩ : Img) 256 256)).px
  have hhist := compareHistCorrel_self (calcHistBins (resizeTo (⟨h, w, false, d⟩ : Img) 256 256))
  have hpix := gridMean_diff_self 256 256 (cvtGray (resizeTo (⟨h, w, false, d⟩ : Img) 256 256)).px
  have hhash := hashDistance_self (perceptual_hash (cvtGray (resizeTo (⟨h, w, false, d⟩ : Img) 256 256)))
  have hdec : decide ((threshold : ℝ) ≤ ((1 : ℚ) : ℝ) * (40/100) + 1 * (25/100)
      + (((1 : ℚ) - (0 : ℚ)/255 : ℚ) : ℝ) * (20/100)
      + (((1 : ℚ) - ((0 : ℕ) : ℚ)/64 : ℚ) : ℝ) * (15/100)) = true := by
    rw [decide_eq_true_eq]
    push_cast
    norm_num
    exact_mod_cast hθ
  rw [hred]
  refine ⟨?_, ?_, ?_, ?_, by norm_num⟩
  · simp only [simSuccess, hssim, hhist, hpix, hhash]
    push_cast
    norm_num
  · simp only [simSuccess, hssim, hhist, hpix, hhash]
    norm_num
  · simp only [simSuccess, hssim, hhist, hpix, hhash, hdec]
  · simp only [simSuccess, hssim, hhist, hpix, hhash, hdec, Bool.not_true]

/-- C7 witness: the theorem applied at the black 10×10 3-channel image and
the default 0.95 threshold. -/
theorem identical_image_is_duplicate_witness :
    (are_images_too_similar (95/100) ⟨10, 10, false, fun _ _ _ => 0⟩
      ⟨10, 10, false, fun _ _ _ => 0⟩).is_duplicate = true :=
  (identical_image_is_duplicate 10 10 (fun _ _ _ => 0) (95/100) (by norm_num)).2.2.1

/-- C8: the three fail-open checks convert any exception of their try
block into a passing/neutral default: `are_images_too_similar` returns
`is_duplicate = false`, `passed = true` (score 0), the security-feature
sub-detector returns `detected = true`, and `is_just_a_face` returns
`is_just_face = false`, `passed = true` — so a fault in any of these can
never by itself cause a rejection. -/
theorem fail_open_checks_pass_on_exception :
    (∀ (threshold : ℚ) (image1 image2 : Img) (e : PyError),
      simTryBody threshold image1 image2 = .error e →
      are_images_too_similar threshold image1 image2 =
        { is_duplicate := false, similarity_score := 0, passed := true,
          error := some e }) ∧
    (∀ (image : Img) (e : PyError),
      securityTryBody image = .error e →
      _detect_security_features image = { detected := true, error := some e }) ∧
    (∀ (faceLocations : Img → Except PyError (List FaceLoc)) (image : Img) (e : PyError),
      isJustFaceTryBody faceLocations image = .error e →
      is_just_a_face faceLocations image =
        { is_just_face := false, passed := some true, error := some e }) := by
  refine ⟨?_, ?_, ?_⟩
  · intro threshold image1 image2 e he
    unfold are_images_too_similar
    rw [he]
  · intro image e he
    unfold _detect_security_features
    rw [he]
  · intro faceLocations image e he
    unfold is_just_a_face
    rw [he]

/-- C8 witness: the theorem applied to three concrete raising inputs — a
grayscale pair for the similarity check, an empty 3-channel image for the
security-feature detector, and a raising face locator for
`is_just_a_face`. -/
theorem fail_open_checks_pass_on_exception_witness :
    are_images_too_similar (95/100) grayUnitImg grayUnitImg =
      { is_duplicate := false, similarity_score := 0, passed := true,
        error := some calcHistChannelError } ∧
    _detect_security_features emptyColorImg =
      { detected := true, error := some emptyImageError } ∧
    is_just_a_face crashLocator img10 =
      { is_just_face := false, passed := some true,
        error := some "face_recognition crashed" } :=
  ⟨fail_open_checks_pass_on_exception.1 (95/100) grayUnitImg grayUnitImg
      calcHistChannelError rfl,
   fail_open_checks_pass_on_exception.2.1 emptyColorImg emptyImageError rfl,
   fail_open_checks_pass_on_exception.2.2 crashLocator img10
      "face_recognition crashed" rfl⟩

/-- C9: for every pair of single-channel (grayscale) images — identical or
not — `are_images_too_similar` takes the exception path (the 3-channel
histogram computation fails on 1-channel input) and therefore returns
`is_duplicate = false`, `passed = true` and `similarity_score = 0.0`: the
duplicate gate never fires on grayscale inputs. -/
theorem grayscale_pair_never_duplicate (threshold : ℚ) (h1 w1 h2 w2 : ℕ)
    (d1 d2 : ℕ → ℕ → ℕ → ℕ) :
    are_images_too_similar threshold ⟨h1, w1, true, d1⟩ ⟨h2, w2, true, d2⟩
      = { is_duplicate := false, similarity_score := 0, passed := true,
          error := some calcHistChannelError } := rfl

/-- C3: whenever a face is available (supplied, or detected with a
non-empty result), `LivenessDetector.check` runs all six sub-checks, the
recorded `checks` dict has exactly six entries, `liveness_score` equals
`checks_passed / 6` where `checks_passed` counts entries with
`passed = true`, and every sub-check that raises is recorded as
`{passed: false, error}` — counted in the denominator, never skipped. -/
theorem liveness_score_is_passed_over_six (P : LivenessPrims) (cfg : LivenessConfig)
    (faceLocations : Img → Except PyError (List FaceLoc)) (image : Img) (loc : FaceLoc) :
    LivenessDetector.check P cfg faceLocations image (some loc)
      = .ok (runAllLivenessChecks P cfg image loc) ∧
    (∀ l ls, faceLocations image = .ok (l :: ls) →
      LivenessDetector.check P cfg faceLocations image none
        = .ok (runAllLivenessChecks P cfg image l)) ∧
    ((runAllLivenessChecks P cfg image loc).checks.getD []).length = 6 ∧
    (runAllLivenessChecks P cfg image loc).liveness_score
      = some ((((runAllLivenessChecks P cfg image loc).checks.getD []).countP
          (·.passed) : ℚ) / 6) ∧
    (∀ f ∈ livenessChecks P cfg, ∀ e, f image loc = .error e →
      ({ passed := false, error := some e } : CheckRes)
        ∈ (runAllLivenessChecks P cfg image loc).checks.getD []) := by
  refine ⟨rfl, ?_, rfl, ?_, ?_⟩
  · intro l ls hl
    unfold LivenessDetector.check
    rw [hl]
  · show some _ = some _
    congr 1
  · intro f hf e he
    show _ ∈ List.map (fun g => runLivenessCheck g image loc) (livenessChecks P cfg)
    refine List.mem_map.mpr ⟨f, hf, ?_⟩
    unfold runLivenessCheck
    rw [he]

/-- C3 witness: at the zero kernels, default config and the black 10×10
image, the sixth sub-check (face proportions, called with swapped
arguments by the dispatcher) raises and is recorded as a failed entry. -/
theorem liveness_score_is_passed_over_six_witness :
    LivenessDetector.check trivPrims cfg0 oneFaceLocator img10 none
      = .ok (runAllLivenessChecks trivPrims cfg0 img10 loc180) ∧
    ({ passed := false, error := some unpackImageError } : CheckRes)
      ∈ (runAllLivenessChecks trivPrims cfg0 img10 loc180).checks.getD [] :=
  ⟨(liveness_score_is_passed_over_six trivPrims cfg0 oneFaceLocator img10 loc180).2.1
      loc180 [] rfl,
   (liveness_score_is_passed_over_six trivPrims cfg0 oneFaceLocator img10 loc180).2.2.2.2
      (_check_face_proportions_dispatched cfg0) (by simp [livenessChecks])
      unpackImageError rfl⟩

/-- C4: on an image with no supplied face location and an empty face
detection result, `LivenessDetector.check` returns the hard failure
`is_live = false, liveness_score = 0.0` with the explicit no-face error
and an empty checks dict, without running any of the six sub-checks (the
result is independent of every sub-check kernel). -/
theorem no_face_hard_failure (P : LivenessPrims) (cfg : LivenessConfig)
    (faceLocations : Img → Except PyError (List FaceLoc)) (image : Img)
    (hnone : faceLocations image = .ok []) :
    LivenessDetector.check P cfg faceLocations image none = .ok noFaceResult ∧
    noFaceResult.is_live = false ∧
    noFaceResult.liveness_score = some 0 ∧
    noFaceResult.error = some "No face detected" ∧
    noFaceResult.checks = some [] := by
  refine ⟨?_, rfl, rfl, rfl, rfl⟩
  unfold LivenessDetector.check
  rw [hnone]

/-- C4 witness: the theorem applied at the zero kernels, default config,
the empty locator and the black 10×10 image. -/
theorem no_face_hard_failure_witness :
    LivenessDetector.check trivPrims cfg0 emptyLocator img10 none = .ok noFaceResult :=
  (no_face_hard_failure trivPrims cfg0 emptyLocator img10 rfl).1

/-- C5 (code bug): `_check_face_proportions` itself does pass for a face
box strictly inside the configured size band — but as executed by
`LivenessDetector.check` the dispatcher hands it the image where it
expects the face tuple, so for the 10×10 image (any image without exactly
4 rows) it raises `ValueError` and is recorded as `passed = false` with an
error, contradicting the claim that in-band faces yield `passed = true`. -/
theorem face_proportions_check_errors_when_dispatched :
    _check_face_proportions cfg0 loc180 (10, 10) = { passed := true } ∧
    cfg0.face_size_min < 180 ∧ (180 : ℤ) < cfg0.face_size_max ∧
    _check_face_proportions_dispatched cfg0 img10 loc180 = .error unpackImageError ∧
    runLivenessCheck (_check_face_proportions_dispatched cfg0) img10 loc180
      = { passed := false, error := some unpackImageError } ∧
    ((runAllLivenessChecks trivPrims cfg0 img10 loc180).checks.getD []).getLast?
      = some { passed := false, error := some unpackImageError } := by
  refine ⟨rfl, by decide, by decide, rfl, rfl, rfl⟩

/-- C1: whenever the similarity gate reports `is_duplicate = true`,
`verify_identity` returns `status = "rejected"` with
`overall_confidence = 0`, invokes none of FaceMatcher, LivenessEvaluator,
DeepfakeEvaluator or DocumentAuthenticator (the trace records only the
similarity step, and the result is the same for every choice of those
detectors), and the response still carries the four skipped CheckResults,
each marked with the `"Duplicate image detected"` sentinel. -/
theorem duplicate_gate_short_circuits (svc : Service) (idDocument selfie : Img)
    (hdup : (svc.similarity_detector idDocument selfie).is_duplicate = true) :
    verify_identity svc idDocument selfie =
      (.ok { status := "rejected", overall_confidence := 0,
             message := .fraudDuplicate,
             similarity_check := svc.similarity_detector idDocument selfie,
             face_match := sentinelFaceMatch duplicateSentinel,
             liveness_check := sentinelLiveness duplicateSentinel,
             deepfake_check := sentinelDeepfake duplicateSentinel,
             document_authenticity := sentinelDocAuth duplicateSentinel },
       [Step.similarity]) := by
  simp only [verify_identity, hdup, if_true]
  rfl

/-- C1 witness: the theorem applied to a concrete service whose
similarity detector reports a duplicate. -/
theorem duplicate_gate_short_circuits_witness :
    verify_identity svcDup img10 img10 =
      (.ok { status := "rejected", overall_confidence := 0,
             message := .fraudDuplicate,
             similarity_check := simDupStub,
             face_match := sentinelFaceMatch duplicateSentinel,
             liveness_check := sentinelLiveness duplicateSentinel,
             deepfake_check := sentinelDeepfake duplicateSentinel,
             document_authenticity := sentinelDocAuth duplicateSentinel },
       [Step.similarity]) :=
  duplicate_gate_short_circuits svcDup img10 img10 rfl

/-- C2: at the decision stage with all four scores present,
`_make_decision` computes exactly the spec's weighted confidence
`liveness×100×0.20 + face×0.50 + auth×0.10 + deepfake×100×0.20` (weights
summing to 1) with the spec's status mapping, whose boundaries give
`75.0 → approved`, `55.0 → manual_review`, `54.999 → rejected`. -/
theorem make_decision_matches_spec (ls fc auth dc : ℚ) :
    _make_decision (mkParallelScores ls fc auth dc) =
      .ok ⟨statusSpec (overallSpec ls fc auth dc), overallSpec ls fc auth dc,
        _get_message (statusSpec (overallSpec ls fc auth dc))
          (overallSpec ls fc auth dc)⟩ ∧
    (20/100 : ℚ) + 50/100 + 10/100 + 20/100 = 1 ∧
    statusSpec 75 = .approved ∧
    statusSpec 55 = .manual_review ∧
    statusSpec (54999/1000) = .rejected := by
  refine ⟨rfl, by norm_num, ?_, ?_, ?_⟩
  · norm_num [statusSpec]
  · norm_num [statusSpec]
  · norm_num [statusSpec]

/-- C6 (code bug): when one of the four parallel checks raises, the
exception is caught and a defaulted dict with the error text is stored —
but its score keys hold Python `None`, and `_make_decision` then computes
`None * 100`, raising a `TypeError` that propagates out of
`verify_identity` instead of the claimed complete verdict.  Shown here
for a liveness-detector fault after all three gates pass. -/
theorem parallel_check_fault_crashes_decision :
    (_run_parallel_checks svcLivenessBoom img10 img10).liveness_check
      = defaultedLiveness "boom" ∧
    (defaultedLiveness "boom").error = some "boom" ∧
    verify_identity svcLivenessBoom img10 img10 =
      (.error noneTimesIntError,
       [Step.similarity, Step.documentStructure, Step.justFace, Step.liveness,
        Step.deepfake, Step.documentAuth, Step.faceMatch]) :=
  ⟨rfl, rfl, rfl⟩

/-- C10: `check_authenticity` without structured data executes exactly the
tampering check, whose result always carries a `passed` key (also when
the tamper detector raises), so `total_checks = 1` and the authenticity
score is exactly 100.0 or 0.0 according to the tamper verdict — the
neutral 50.0 zero-checks default is unreachable from the pipeline. -/
theorem authenticity_single_check (P : DocPrims) (minScore : ℚ) (image : Img) :
    (_detect_tampering P image).passed.isSome = true ∧
    (check_authenticity P minScore image).checks_passed
      = some (if (_detect_tampering P image).passed = some true then 1 else 0, 1) ∧
    (check_authenticity P minScore image).authenticity_score
      = some (if (_detect_tampering P image).passed = some true then 100 else 0) ∧
    (check_authenticity P minScore image).authenticity_score ≠ some 50 := by
  have hsome : (_detect_tampering P image).passed.isSome = true := by
    unfold _detect_tampering
    cases htb : tamperTryBody P image with
    | ok r =>
      unfold tamperTryBody at htb
      split at htb
      · exact absurd htb (by simp)
      · simp only [Except.ok.injEq] at htb
        rw [← htb]
        rfl
    | error e => rfl
  refine ⟨hsome, ?_, ?_, ?_⟩
  · simp only [check_authenticity, hsome, if_true]
  · simp only [check_authenticity, hsome, if_true]
    by_cases hp : (_detect_tampering P image).passed = some true
    · simp only [hp, if_pos, if_true]
      norm_num
    · simp only [hp, if_neg, if_false]
      norm_num
  · simp only [check_authenticity, hsome, if_true]
    by_cases hp : (_detect_tampering P image).passed = some true
    · simp only [hp, if_true]
      norm_num
    · simp only [hp, if_false]
      norm_num

/-- C10 witness: the theorem applied at the zero kernels, the default 60.0
minimum score and the black 10×10 image. -/
theorem authenticity_single_check_witness :
    (check_authenticity trivDocPrims 60 img10).authenticity_score
      = some (if (_detect_tampering trivDocPrims img10).passed = some true then 100 else 0) ∧
    (check_authenticity trivDocPrims 60 img10).authenticity_score ≠ some 50 :=
  ⟨(authenticity_single_check trivDocPrims 60 img10).2.2.1,
   (authenticity_single_check trivDocPrims 60 img10).2.2.2⟩

end Idyntra
